import Mathlib

/-!
Verification of the media-observer core of the flex-layout repository.

The authoritative source is `src/lib/core/media-observer/media-observer.ts`
(class `MediaObserver`: `isActive`, `watchActivations`, `buildObservable`,
`addPrintListener`, `toMediaQuery`).  The collaborators it imports
(`BreakPointRegistry`, `MediaChange`, `mergeAlias`, the layout
configuration) are not part of the available sources and are modelled from
the specification, as marked on each definition.
-/

namespace FlexLayout

/-- Modelled from the spec: a `Breakpoint` value object with an `alias`
identifier, the literal `mediaQuery` string it maps to, and the
`overlapping` flag marking broader/modifier ranges. -/
structure BreakPoint where
  alias_ : String
  mediaQuery : String
  overlapping : Bool
  deriving DecidableEq, Repr

/-- Modelled from the spec: `BreakPointRegistry` is an ordered collection of
breakpoints (`items`), built once and read-only thereafter. -/
structure BreakPointRegistry where
  items : List BreakPoint
  deriving DecidableEq, Repr

/-- Modelled from the spec: `findByAlias(alias)` is an exact lookup on the
`alias` field; not-found is an ordinary outcome, returned as `none`. -/
def BreakPointRegistry.findByAlias (r : BreakPointRegistry) (a : String) :
    Option BreakPoint :=
  r.items.find? (fun bp => bp.alias_ == a)

/-- Modelled from the spec: `findByQuery(query)` is an exact string lookup on
the `mediaQuery` field. -/
def BreakPointRegistry.findByQuery (r : BreakPointRegistry) (q : String) :
    Option BreakPoint :=
  r.items.find? (fun bp => bp.mediaQuery == q)

/-- Modelled from the spec: a `MediaChange` notification carries the raw
`mediaQuery` string, the `matches` flag (true on activation), and the
`mqAlias` field, initially empty and filled in by annotation when a
matching breakpoint exists. -/
structure MediaChange where
  matches_ : Bool
  mediaQuery : String
  mqAlias : String
  deriving DecidableEq, Repr

/-- Modelled from the spec: the configuration option `printWithBreakpoint`
associates the synthetic `"print"` query with a breakpoint alias; `none`
means the option is absent. -/
structure LayoutConfigOptions where
  printWithBreakpoint : Option String
  deriving DecidableEq, Repr

/-- JavaScript truthiness of an optional string (`!!x`): defined and
non-empty. Used by `addPrintListener`, which tests
`!!this.layoutConfig.printWithBreakpoint`. -/
def truthy : Option String → Bool
  | none => false
  | some s => s ≠ ""

/-- Modelled from the spec: `mergeAlias` copies the breakpoint's alias onto
the change event when a breakpoint was resolved, and returns the event
unchanged (alias stays as it was) when none was found.  The canonical
`mediaQuery` replacement is performed by the caller in `buildObservable`
before this merge, as in the source. -/
def mergeAlias (dest : MediaChange) (source : Option BreakPoint) : MediaChange :=
  match source with
  | some bp => { dest with mqAlias := bp.alias_ }
  | none => dest

/-- The initial value of the mutable `filterOverlaps` field of
`MediaObserver` (`filterOverlaps = true`, media-observer.ts line 65). -/
def initFilterOverlaps : Bool := true

/-- The `excludeOverlaps` predicate from `buildObservable`
(media-observer.ts lines 105-108): look up the raw query; pass when
unregistered, otherwise drop exactly when the breakpoint is overlapping and
`filterOverlaps` is currently true.  Returns true when the event passes. -/
def excludeOverlaps (locator : BreakPointRegistry) (filterOverlaps : Bool)
    (change : MediaChange) : Bool :=
  match locator.findByQuery change.mediaQuery with
  | none => true
  | some bp => !(filterOverlaps && bp.overlapping)

/-- The breakpoint resolution of the `map` stage in `buildObservable`
(media-observer.ts lines 120-122): by the configured `printWithBreakpoint`
alias when the raw query is the literal `"print"` (the source reads the
option through a non-null assertion; an absent option makes the alias
lookup miss, hence `none`), by query lookup otherwise. -/
def resolveBp (locator : BreakPointRegistry) (cfg : LayoutConfigOptions)
    (change : MediaChange) : Option BreakPoint :=
  if change.mediaQuery == "print" then
    match cfg.printWithBreakpoint with
    | some a => locator.findByAlias a
    | none => none
  else locator.findByQuery change.mediaQuery

/-- The `map` stage of `buildObservable` (media-observer.ts lines 119-128):
resolve the breakpoint, replace the event's `mediaQuery` with the
breakpoint's canonical string when one was found, then merge the alias in. -/
def annotateChange (locator : BreakPointRegistry) (cfg : LayoutConfigOptions)
    (change : MediaChange) : MediaChange :=
  let bp : Option BreakPoint := resolveBp locator cfg change
  let change' :=
    match bp with
    | some b => { change with mediaQuery := b.mediaQuery }
    | none => change
  mergeAlias change' bp

/-- One raw watcher event through the `buildObservable` pipeline
(media-observer.ts lines 115-129): the activation filter
(`change.matches`), then `excludeOverlaps` read against the current
`filterOverlaps` flag, then the annotation map.  `none` means the event is
dropped; `some e` means exactly the event `e` is emitted downstream. -/
def processEvent (locator : BreakPointRegistry) (cfg : LayoutConfigOptions)
    (filterOverlaps : Bool) (change : MediaChange) : Option MediaChange :=
  if change.matches_ then
    if excludeOverlaps locator filterOverlaps change then
      some (annotateChange locator cfg change)
    else none
  else none

/-- A finite run of the pipeline: each raw event is processed under the
`filterOverlaps` flag value in force when it arrives (the flag is mutable
and re-read per event), and the surviving events are emitted in order. -/
def processStream (locator : BreakPointRegistry) (cfg : LayoutConfigOptions)
    (evs : List (Bool × MediaChange)) : List MediaChange :=
  evs.filterMap (fun p => processEvent locator cfg p.1 p.2)

/-- The `addPrintListener` step (media-observer.ts lines 135-140): append
the literal query `"print"` exactly when `printWithBreakpoint` is truthy. -/
def addPrintListener (cfg : LayoutConfigOptions) (queries : List String) :
    List String :=
  if truthy cfg.printWithBreakpoint then queries ++ ["print"] else queries

/-- The watch-list handed to `mediaWatcher.observe` (media-observer.ts
lines 91-94 and 115): the registry's query strings in registry order, with
`addPrintListener` applied. -/
def watchList (locator : BreakPointRegistry) (cfg : LayoutConfigOptions) :
    List String :=
  addPrintListener cfg (locator.items.map (fun bp => bp.mediaQuery))

/-- The `toMediaQuery` helper (media-observer.ts lines 145-149): resolve an
alias or query string to a canonical query, alias lookup first (JS `||`),
falling back to the literal argument. -/
def toMediaQuery (locator : BreakPointRegistry) (query : String) : String :=
  match (locator.findByAlias query).orElse (fun _ => locator.findByQuery query) with
  | some bp => bp.mediaQuery
  | none => query

/-- The `isActive` method (media-observer.ts lines 78-80): the watcher's
synchronous answer for the resolved query.  The watcher is abstract, a
function from query strings to match state. -/
def isActive (locator : BreakPointRegistry) (watcher : String → Bool)
    (aliasOrQuery : String) : Bool :=
  watcher (toMediaQuery locator aliasOrQuery)

/-- Resolution order as the spec words it for `isActive`: alias lookup
first, then query lookup, then the literal string passed through.  Stated
separately from `toMediaQuery` to compare the code against the spec. -/
def resolveSpec (locator : BreakPointRegistry) (x : String) : String :=
  match locator.findByAlias x with
  | some bp => bp.mediaQuery
  | none =>
    match locator.findByQuery x with
    | some bp => bp.mediaQuery
    | none => x

/-! Helper lemmas about the pipeline stages. -/

theorem resolveBp_of_ne_print (locator : BreakPointRegistry)
    (cfg : LayoutConfigOptions) (c : MediaChange) (h : c.mediaQuery ≠ "print") :
    resolveBp locator cfg c = locator.findByQuery c.mediaQuery := by
  simp [resolveBp, h]

theorem resolveBp_of_print (locator : BreakPointRegistry)
    (cfg : LayoutConfigOptions) (c : MediaChange) (a : String)
    (hq : c.mediaQuery = "print") (hcfg : cfg.printWithBreakpoint = some a) :
    resolveBp locator cfg c = locator.findByAlias a := by
  simp [resolveBp, hq, hcfg]

theorem annotateChange_of_some (locator : BreakPointRegistry)
    (cfg : LayoutConfigOptions) (c : MediaChange) (b : BreakPoint)
    (h : resolveBp locator cfg c = some b) :
    annotateChange locator cfg c =
      { c with mediaQuery := b.mediaQuery, mqAlias := b.alias_ } := by
  simp [annotateChange, h, mergeAlias]

theorem annotateChange_of_none (locator : BreakPointRegistry)
    (cfg : LayoutConfigOptions) (c : MediaChange)
    (h : resolveBp locator cfg c = none) :
    annotateChange locator cfg c = c := by
  simp [annotateChange, h, mergeAlias]

theorem annotateChange_matches (locator : BreakPointRegistry)
    (cfg : LayoutConfigOptions) (c : MediaChange) :
    (annotateChange locator cfg c).matches_ = c.matches_ := by
  cases h : resolveBp locator cfg c with
  | none => rw [annotateChange_of_none locator cfg c h]
  | some b => rw [annotateChange_of_some locator cfg c b h]

theorem excludeOverlaps_of_none (locator : BreakPointRegistry)
    (fl : Bool) (c : MediaChange)
    (h : locator.findByQuery c.mediaQuery = none) :
    excludeOverlaps locator fl c = true := by
  simp [excludeOverlaps, h]

theorem processEvent_of_not_matches (locator : BreakPointRegistry)
    (cfg : LayoutConfigOptions) (fl : Bool) (c : MediaChange)
    (h : c.matches_ = false) :
    processEvent locator cfg fl c = none := by
  simp [processEvent, h]

theorem processEvent_of_pass (locator : BreakPointRegistry)
    (cfg : LayoutConfigOptions) (fl : Bool) (c : MediaChange)
    (hm : c.matches_ = true) (hpass : excludeOverlaps locator fl c = true) :
    processEvent locator cfg fl c = some (annotateChange locator cfg c) := by
  simp [processEvent, hm, hpass]

theorem processEvent_of_drop (locator : BreakPointRegistry)
    (cfg : LayoutConfigOptions) (fl : Bool) (c : MediaChange)
    (hpass : excludeOverlaps locator fl c = false) :
    processEvent locator cfg fl c = none := by
  simp [processEvent, hpass]

theorem findByAlias_some (locator : BreakPointRegistry) (a : String)
    (bp : BreakPoint) (h : locator.findByAlias a = some bp) :
    bp.alias_ = a := by
  have := List.find?_some h
  exact eq_of_beq this

/-! Claim theorems. -/

/-- C1: a raw change event with `matches = false` produces no downstream
event, any emitted event comes from a `matches = true` input and itself has
`matches = true`, and hence every event of a finite run of the stream has
`matches = true`. -/
theorem activation_only (locator : BreakPointRegistry)
    (cfg : LayoutConfigOptions) :
    (∀ fl c, c.matches_ = false → processEvent locator cfg fl c = none) ∧
    (∀ fl c e, processEvent locator cfg fl c = some e → e.matches_ = true) ∧
    (∀ evs e, e ∈ processStream locator cfg evs → e.matches_ = true) := by
  have h2 : ∀ fl c e, processEvent locator cfg fl c = some e →
      e.matches_ = true := by
    intro fl c e h
    cases hm : c.matches_ with
    | false => rw [processEvent_of_not_matches locator cfg fl c hm] at h; cases h
    | true =>
      cases hpass : excludeOverlaps locator fl c with
      | false => rw [processEvent_of_drop locator cfg fl c hpass] at h; cases h
      | true =>
        rw [processEvent_of_pass locator cfg fl c hm hpass] at h
        cases h
        rw [annotateChange_matches locator cfg c, hm]
  refine ⟨fun fl c h => processEvent_of_not_matches locator cfg fl c h, h2,
    fun evs e h => ?_⟩
  simp only [processStream, List.mem_filterMap] at h
  obtain ⟨p, _, hp⟩ := h
  exact h2 p.1 p.2 e hp

/-- C1 witness: a concrete de-activation is dropped and a concrete
stream element has `matches = true`. -/
theorem activation_only_witness :
    processEvent ⟨[]⟩ ⟨none⟩ true ⟨false, "(min-width:600px)", ""⟩ = none ∧
    MediaChange.matches_ ⟨true, "(min-width:600px)", ""⟩ = true :=
  ⟨(activation_only ⟨[]⟩ ⟨none⟩).1 true ⟨false, "(min-width:600px)", ""⟩ rfl,
   (activation_only ⟨[]⟩ ⟨none⟩).2.2 [(true, ⟨true, "(min-width:600px)", ""⟩)]
     ⟨true, "(min-width:600px)", ""⟩ (by decide)⟩

/-- C2 (amended): for an activation event whose query resolves via
`findByQuery` to an overlapping breakpoint and is not the literal
`"print"`: with `filterOverlaps = true` (the default initial value) the
event is dropped; with `filterOverlaps = false` exactly one event is
emitted, carrying that breakpoint's alias and canonical query. -/
theorem overlap_suppression (locator : BreakPointRegistry)
    (cfg : LayoutConfigOptions) (c : MediaChange) (bp : BreakPoint)
    (hq : locator.findByQuery c.mediaQuery = some bp)
    (hov : bp.overlapping = true)
    (hm : c.matches_ = true)
    (hp : c.mediaQuery ≠ "print") :
    initFilterOverlaps = true ∧
    processEvent locator cfg true c = none ∧
    processEvent locator cfg false c =
      some { c with mediaQuery := bp.mediaQuery, mqAlias := bp.alias_ } ∧
    processStream locator cfg [(true, c), (false, c)] =
      [{ c with mediaQuery := bp.mediaQuery, mqAlias := bp.alias_ }] := by
  have hdrop : processEvent locator cfg true c = none :=
    processEvent_of_drop locator cfg true c (by simp [excludeOverlaps, hq, hov])
  have hpass : processEvent locator cfg false c =
      some { c with mediaQuery := bp.mediaQuery, mqAlias := bp.alias_ } := by
    rw [processEvent_of_pass locator cfg false c hm (by simp [excludeOverlaps, hq]),
      annotateChange_of_some locator cfg c bp
        (by rw [resolveBp_of_ne_print locator cfg c hp, hq])]
  exact ⟨rfl, hdrop, hpass, by simp [processStream, hdrop, hpass]⟩

/-- C2 witness: a concrete overlapping breakpoint is suppressed under the
default flag and announced with its alias once the flag is false. -/
theorem overlap_suppression_witness :
    initFilterOverlaps = true ∧
    processEvent ⟨[⟨"gt-sm", "screen and (min-width:600px)", true⟩]⟩ ⟨none⟩
      true ⟨true, "screen and (min-width:600px)", ""⟩ = none ∧
    processEvent ⟨[⟨"gt-sm", "screen and (min-width:600px)", true⟩]⟩ ⟨none⟩
      false ⟨true, "screen and (min-width:600px)", ""⟩ =
      some ⟨true, "screen and (min-width:600px)", "gt-sm"⟩ ∧
    processStream ⟨[⟨"gt-sm", "screen and (min-width:600px)", true⟩]⟩ ⟨none⟩
      [(true, ⟨true, "screen and (min-width:600px)", ""⟩),
       (false, ⟨true, "screen and (min-width:600px)", ""⟩)] =
      [⟨true, "screen and (min-width:600px)", "gt-sm"⟩] :=
  overlap_suppression ⟨[⟨"gt-sm", "screen and (min-width:600px)", true⟩]⟩
    ⟨none⟩ ⟨true, "screen and (min-width:600px)", ""⟩
    ⟨"gt-sm", "screen and (min-width:600px)", true⟩
    (by decide) (by decide) (by decide) (by decide)

/-- C2 counterexample: a breakpoint registered with the literal query
`"print"` and `overlapping = true`; with `filterOverlaps = false` its
activation is emitted, but annotation goes through `printWithBreakpoint`
(absent here), so the emitted alias is `""`, not the breakpoint's alias
`"p"` as the claim requires. -/
theorem overlap_suppression_cex :
    BreakPointRegistry.findByQuery ⟨[⟨"p", "print", true⟩]⟩ "print" =
      some ⟨"p", "print", true⟩ ∧
    processEvent ⟨[⟨"p", "print", true⟩]⟩ ⟨none⟩ false ⟨true, "print", ""⟩ =
      some ⟨true, "print", ""⟩ ∧
    ("" : String) ≠ "p" := by decide

/-- C3 (amended): an activation event whose query resolves via
`findByQuery` to breakpoint `B`, survives the overlap filter, and is not
the literal `"print"`, is emitted with alias `B.alias` and the registry's
canonical `B.mediaQuery`. -/
theorem alias_injection (locator : BreakPointRegistry)
    (cfg : LayoutConfigOptions) (fl : Bool) (c : MediaChange) (bp : BreakPoint)
    (hq : locator.findByQuery c.mediaQuery = some bp)
    (hm : c.matches_ = true)
    (hpass : excludeOverlaps locator fl c = true)
    (hp : c.mediaQuery ≠ "print") :
    processEvent locator cfg fl c =
      some { c with mediaQuery := bp.mediaQuery, mqAlias := bp.alias_ } := by
  rw [processEvent_of_pass locator cfg fl c hm hpass,
    annotateChange_of_some locator cfg c bp
      (by rw [resolveBp_of_ne_print locator cfg c hp, hq])]

/-- C3 witness: a concrete registered breakpoint is announced with its
alias and canonical query. -/
theorem alias_injection_witness :
    processEvent ⟨[⟨"md", "(min-width:960px)", false⟩]⟩ ⟨none⟩ true
      ⟨true, "(min-width:960px)", ""⟩ =
      some ⟨true, "(min-width:960px)", "md"⟩ :=
  alias_injection ⟨[⟨"md", "(min-width:960px)", false⟩]⟩ ⟨none⟩ true
    ⟨true, "(min-width:960px)", ""⟩ ⟨"md", "(min-width:960px)", false⟩
    (by decide) (by decide) (by decide) (by decide)

/-- C3 counterexample: a breakpoint registered with the literal query
`"print"`; its activation survives the filter but is annotated through the
`printWithBreakpoint` alias (here `"sm"`, unregistered), so the emitted
alias is `""`, not the resolved breakpoint's alias `"q"` as the claim
requires. -/
theorem alias_injection_cex :
    BreakPointRegistry.findByQuery ⟨[⟨"q", "print", false⟩]⟩ "print" =
      some ⟨"q", "print", false⟩ ∧
    processEvent ⟨[⟨"q", "print", false⟩]⟩ ⟨some "sm"⟩ true
      ⟨true, "print", ""⟩ = some ⟨true, "print", ""⟩ ∧
    ("" : String) ≠ "q" := by decide

/-- C4: with `printWithBreakpoint` set to a registered alias and `"print"`
itself unregistered (it is the synthetic watch-list entry), an activation
of the literal `"print"` is emitted with the configured alias and that
alias's canonical registry query; the annotation breakpoint comes from the
alias lookup, not from a query lookup on `"print"`. -/
theorem print_substitution (locator : BreakPointRegistry)
    (cfg : LayoutConfigOptions) (fl : Bool) (a : String) (bp : BreakPoint)
    (c : MediaChange)
    (hcfg : cfg.printWithBreakpoint = some a)
    (ha : locator.findByAlias a = some bp)
    (hpr : locator.findByQuery "print" = none)
    (hm : c.matches_ = true)
    (hq : c.mediaQuery = "print") :
    processEvent locator cfg fl c =
      some { c with mediaQuery := bp.mediaQuery, mqAlias := a } := by
  have hba : bp.alias_ = a := findByAlias_some locator a bp ha
  rw [processEvent_of_pass locator cfg fl c hm
      (excludeOverlaps_of_none locator fl c (by rw [hq]; exact hpr)),
    annotateChange_of_some locator cfg c bp
      (by rw [resolveBp_of_print locator cfg c a hq hcfg, ha]), hba]

/-- C4 witness: the spec's own example, `printWithBreakpoint = "sm"`
registered as `"(min-width:600px)"`. -/
theorem print_substitution_witness :
    processEvent ⟨[⟨"sm", "(min-width:600px)", false⟩]⟩ ⟨some "sm"⟩ true
      ⟨true, "print", ""⟩ = some ⟨true, "(min-width:600px)", "sm"⟩ :=
  print_substitution ⟨[⟨"sm", "(min-width:600px)", false⟩]⟩ ⟨some "sm"⟩ true
    "sm" ⟨"sm", "(min-width:600px)", false⟩ ⟨true, "print", ""⟩
    (by decide) (by decide) (by decide) (by decide) (by decide)

/-- C5: `isActive` returns the watcher's synchronous answer for the query
resolved with alias lookup first, then query lookup, then the literal
argument itself; in particular it is total, so a nonexistent alias yields
the watcher's boolean for the literal string, never an error. -/
theorem isActive_resolution (locator : BreakPointRegistry)
    (watcher : String → Bool) (x : String) :
    isActive locator watcher x = watcher (resolveSpec locator x) := by
  unfold isActive toMediaQuery resolveSpec
  cases locator.findByAlias x <;> cases locator.findByQuery x <;>
    simp [Option.orElse]

/-- C6 (amended): an activation event whose query is not in the registry
passes the overlap filter under either flag value; and, provided the query
is not the literal `"print"` (whose annotation goes through the
`printWithBreakpoint` substitution), it is emitted downstream completely
unchanged — alias field (empty on raw events) and query string intact. -/
theorem unregistered_passthrough (locator : BreakPointRegistry)
    (cfg : LayoutConfigOptions) (fl : Bool) (c : MediaChange)
    (hq : locator.findByQuery c.mediaQuery = none)
    (hm : c.matches_ = true) :
    excludeOverlaps locator fl c = true ∧
    (c.mediaQuery ≠ "print" → processEvent locator cfg fl c = some c) := by
  refine ⟨excludeOverlaps_of_none locator fl c hq, fun hp => ?_⟩
  rw [processEvent_of_pass locator cfg fl c hm
      (excludeOverlaps_of_none locator fl c hq),
    annotateChange_of_none locator cfg c
      (by rw [resolveBp_of_ne_print locator cfg c hp, hq])]

/-- C6 witness: a concrete unregistered query passes the filter and is
emitted unchanged with empty alias. -/
theorem unregistered_passthrough_witness :
    excludeOverlaps ⟨[⟨"sm", "(min-width:600px)", false⟩]⟩ true
      ⟨true, "(max-width:959px)", ""⟩ = true ∧
    processEvent ⟨[⟨"sm", "(min-width:600px)", false⟩]⟩ ⟨none⟩ true
      ⟨true, "(max-width:959px)", ""⟩ = some ⟨true, "(max-width:959px)", ""⟩ :=
  ⟨(unregistered_passthrough ⟨[⟨"sm", "(min-width:600px)", false⟩]⟩ ⟨none⟩
      true ⟨true, "(max-width:959px)", ""⟩ (by decide) (by decide)).1,
   (unregistered_passthrough ⟨[⟨"sm", "(min-width:600px)", false⟩]⟩ ⟨none⟩
      true ⟨true, "(max-width:959px)", ""⟩ (by decide) (by decide)).2
     (by decide)⟩

/-- C6 counterexample: the query `"print"` is not in the registry, yet with
`printWithBreakpoint = "sm"` configured its activation is emitted with
alias `"sm"` and query rewritten to `"(min-width:600px)"` — not with an
empty alias and the original query as the claim requires. -/
theorem unregistered_passthrough_cex :
    BreakPointRegistry.findByQuery ⟨[⟨"sm", "(min-width:600px)", false⟩]⟩
      "print" = none ∧
    processEvent ⟨[⟨"sm", "(min-width:600px)", false⟩]⟩ ⟨some "sm"⟩ true
      ⟨true, "print", ""⟩ = some ⟨true, "(min-width:600px)", "sm"⟩ ∧
    ("sm" : String) ≠ "" ∧ ("(min-width:600px)" : String) ≠ "print" := by
  decide

/-- C7: with `printWithBreakpoint` set to an alias absent from the registry
(and `"print"` itself unregistered), an activation of the literal
`"print"` is still emitted, completely unchanged — raw query `"print"`
kept, no alias annotation — and the pipeline, being a total function,
raises no error. -/
theorem print_missing_alias (locator : BreakPointRegistry)
    (cfg : LayoutConfigOptions) (fl : Bool) (a : String) (c : MediaChange)
    (hcfg : cfg.printWithBreakpoint = some a)
    (ha : locator.findByAlias a = none)
    (hpr : locator.findByQuery "print" = none)
    (hm : c.matches_ = true)
    (hq : c.mediaQuery = "print") :
    processEvent locator cfg fl c = some c := by
  rw [processEvent_of_pass locator cfg fl c hm
      (excludeOverlaps_of_none locator fl c (by rw [hq]; exact hpr)),
    annotateChange_of_none locator cfg c
      (by rw [resolveBp_of_print locator cfg c a hq hcfg, ha])]

/-- C7 witness: `printWithBreakpoint = "sm"` with only `"md"` registered;
the print activation is emitted unannotated. -/
theorem print_missing_alias_witness :
    processEvent ⟨[⟨"md", "(min-width:960px)", false⟩]⟩ ⟨some "sm"⟩ true
      ⟨true, "print", ""⟩ = some ⟨true, "print", ""⟩ :=
  print_missing_alias ⟨[⟨"md", "(min-width:960px)", false⟩]⟩ ⟨some "sm"⟩ true
    "sm" ⟨true, "print", ""⟩
    (by decide) (by decide) (by decide) (by decide) (by decide)

/-- C8: the watch-list registered with the watcher is the registry items'
query strings in registry order, with the literal `"print"` appended at the
end exactly when a `printWithBreakpoint` alias is configured (truthy, i.e.
present and non-empty). -/
theorem watch_list (locator : BreakPointRegistry) (cfg : LayoutConfigOptions) :
    (truthy cfg.printWithBreakpoint = true →
      watchList locator cfg =
        locator.items.map (fun bp => bp.mediaQuery) ++ ["print"]) ∧
    (truthy cfg.printWithBreakpoint = false →
      watchList locator cfg = locator.items.map (fun bp => bp.mediaQuery)) := by
  constructor <;> intro h <;> simp [watchList, addPrintListener, h]

/-- C8 witness: a two-breakpoint registry with print configured yields the
two queries in order plus `"print"` at the end. -/
theorem watch_list_witness :
    truthy (some "sm") = true ∧
    watchList ⟨[⟨"sm", "(min-width:600px)", false⟩,
                ⟨"md", "(min-width:960px)", false⟩]⟩ ⟨some "sm"⟩ =
      ["(min-width:600px)", "(min-width:960px)", "print"] :=
  ⟨by decide,
   (watch_list ⟨[⟨"sm", "(min-width:600px)", false⟩,
                 ⟨"md", "(min-width:960px)", false⟩]⟩ ⟨some "sm"⟩).1
     (by decide)⟩

/-- C9: a finite run of the pipeline is an order-preserving image of its
input: processing distributes over concatenation of arrival sequences, and
a single raw event contributes exactly the (at most one) event that
`processEvent` yields for it — no reordering, batching or coalescing. -/
theorem order_preserving (locator : BreakPointRegistry)
    (cfg : LayoutConfigOptions) :
    (∀ evs1 evs2, processStream locator cfg (evs1 ++ evs2) =
      processStream locator cfg evs1 ++ processStream locator cfg evs2) ∧
    (∀ fl c, processStream locator cfg [(fl, c)] =
      (processEvent locator cfg fl c).toList) ∧
    (∀ fl c, (processStream locator cfg [(fl, c)]).length ≤ 1) := by
  refine ⟨fun evs1 evs2 => ?_, fun fl c => ?_, fun fl c => ?_⟩
  · simp [processStream]
  · cases h : processEvent locator cfg fl c <;> simp [processStream, h]
  · cases h : processEvent locator cfg fl c <;> simp [processStream, h]

/-- C10: with `"print"` not registered as a query, an activation of the
literal `"print"` passes the overlap filter even when `filterOverlaps` is
true and the configured print breakpoint is overlapping, because the
filter looks up the raw `"print"` before the substitution; the event is
then emitted under the overlapping breakpoint's alias. -/
theorem print_not_dropped (locator : BreakPointRegistry)
    (cfg : LayoutConfigOptions) (a : String) (bp : BreakPoint) (c : MediaChange)
    (hcfg : cfg.printWithBreakpoint = some a)
    (ha : locator.findByAlias a = some bp)
    (hov : bp.overlapping = true)
    (hpr : locator.findByQuery "print" = none)
    (hm : c.matches_ = true)
    (hq : c.mediaQuery = "print") :
    excludeOverlaps locator true c = true ∧
    processEvent locator cfg true c =
      some { c with mediaQuery := bp.mediaQuery, mqAlias := bp.alias_ } := by
  refine ⟨excludeOverlaps_of_none locator true c (by rw [hq]; exact hpr), ?_⟩
  rw [processEvent_of_pass locator cfg true c hm
      (excludeOverlaps_of_none locator true c (by rw [hq]; exact hpr)),
    annotateChange_of_some locator cfg c bp
      (by rw [resolveBp_of_print locator cfg c a hq hcfg, ha])]

/-- C10 witness: print mapped to an overlapping breakpoint is still
announced with the default `filterOverlaps = true`. -/
theorem print_not_dropped_witness :
    excludeOverlaps ⟨[⟨"gt-xs", "screen and (min-width:0px)", true⟩]⟩ true
      ⟨true, "print", ""⟩ = true ∧
    processEvent ⟨[⟨"gt-xs", "screen and (min-width:0px)", true⟩]⟩
      ⟨some "gt-xs"⟩ true ⟨true, "print", ""⟩ =
      some ⟨true, "screen and (min-width:0px)", "gt-xs"⟩ :=
  print_not_dropped ⟨[⟨"gt-xs", "screen and (min-width:0px)", true⟩]⟩
    ⟨some "gt-xs"⟩ "gt-xs" ⟨"gt-xs", "screen and (min-width:0px)", true⟩
    ⟨true, "print", ""⟩
    (by decide) (by decide) (by decide) (by decide) (by decide) (by decide)

end FlexLayout
